import Mathlib

/-
  Verification development for the evm-wallet-skill repository.

  Shallow embedding of:
    - src/lib/chains.js   (chain registry: chains table, getChain, explorer URLs)
    - src/lib/gas.js      (gas estimator: isLegacyGasChain, estimateGas,
                           estimateEIP1559Gas, estimateLegacyGas,
                           estimateMaxPriorityFeePerGas, estimateGasLimit,
                           buildGasParams)
    - src/transfer.js     (transfer orchestration: balance check, gas
                           estimation, send)
    - src/add-chain.js / src/remove-chain.js (user chain management)

  Wei amounts and gas quantities are JavaScript bigints in the source; they
  are modelled as Nat (all quantities involved are non-negative; bigint
  division truncates toward zero, which on non-negatives agrees with Nat
  division).  Network calls are modelled by an oracle structure RpcClient
  whose fields give each RPC read a deterministic Except-valued outcome;
  a thrown JS error is Except.error carrying the message.  Human-readable
  gwei formatting fields (estimatedCostGwei etc.), which are derived
  display strings computed with floating point, are omitted from the
  fee-envelope model.
-/

namespace EvmWallet

/-- Native token descriptor: the nativeToken field of a chain config. -/
structure NativeToken where
  symbol : String
  decimals : Nat
deriving Repr, DecidableEq

/-- Block explorer descriptor: the explorer field of a chain config. -/
structure Explorer where
  name : String
  url : String
deriving Repr, DecidableEq

/-- One chain configuration object from src/lib/chains.js.  A JS config may
omit the explorer (modelled Option) and the legacyGas flag (a missing or
non-true field behaves as false, matching the `chain.legacyGas === true`
test in gas.js). -/
structure Chain where
  chainId : Nat
  name : String
  nativeToken : NativeToken
  explorer : Option Explorer
  rpcs : List String
  legacyGas : Bool
deriving Repr, DecidableEq

/-- A chain registry: the `chains` object of src/lib/chains.js, modelled as
an association list from chain key to config (JS object keys are unique). -/
abbrev Registry := List (String × Chain)

/-- Property access `obj[key]` on a registry object: the value at the first
matching key, none when absent. -/
def regLookup (key : String) : Registry → Option Chain
  | [] => none
  | (k, c) :: rest => if k = key then some c else regLookup key rest

/-- JS `toLowerCase()`: String.toLower restated over the character list so
it evaluates by structural recursion (String.mapAux in core is defined by
well-founded recursion on byte positions and does not reduce in the
kernel); Char.toLower is the core ASCII lowering, which agrees with JS
toLowerCase on the ASCII chain names this repository uses. -/
def lowerStr (s : String) : String :=
  String.mk (s.data.map Char.toLower)

/-- The built-in `chains` constant of src/lib/chains.js (ethereum, base,
polygon, arbitrum, optimism, megaeth). -/
def builtinChains : Registry :=
  [ ("ethereum",
      { chainId := 1, name := "Ethereum",
        nativeToken := { symbol := "ETH", decimals := 18 },
        explorer := some { name := "Etherscan", url := "https://etherscan.io" },
        rpcs := ["https://ethereum.publicnode.com",
                 "https://cloudflare-eth.com",
                 "https://rpc.ankr.com/eth"],
        legacyGas := false }),
    ("base",
      { chainId := 8453, name := "Base",
        nativeToken := { symbol := "ETH", decimals := 18 },
        explorer := some { name := "BaseScan", url := "https://basescan.org" },
        rpcs := ["https://mainnet.base.org",
                 "https://base.publicnode.com",
                 "https://base.llamarpc.com"],
        legacyGas := false }),
    ("polygon",
      { chainId := 137, name := "Polygon",
        nativeToken := { symbol := "POL", decimals := 18 },
        explorer := some { name := "PolygonScan", url := "https://polygonscan.com" },
        rpcs := ["https://polygon.llamarpc.com",
                 "https://polygon.publicnode.com",
                 "https://rpc.ankr.com/polygon"],
        legacyGas := false }),
    ("arbitrum",
      { chainId := 42161, name := "Arbitrum One",
        nativeToken := { symbol := "ETH", decimals := 18 },
        explorer := some { name := "Arbiscan", url := "https://arbiscan.io" },
        rpcs := ["https://arbitrum.publicnode.com",
                 "https://arbitrum.llamarpc.com",
                 "https://rpc.ankr.com/arbitrum"],
        legacyGas := false }),
    ("optimism",
      { chainId := 10, name := "Optimism",
        nativeToken := { symbol := "ETH", decimals := 18 },
        explorer := some { name := "Optimism Etherscan", url := "https://optimistic.etherscan.io" },
        rpcs := ["https://optimism.publicnode.com",
                 "https://optimism.llamarpc.com",
                 "https://rpc.ankr.com/optimism"],
        legacyGas := false }),
    ("megaeth",
      { chainId := 6343, name := "MegaETH Testnet",
        nativeToken := { symbol := "ETH", decimals := 18 },
        explorer := some { name := "MegaETH Blockscout", url := "https://megaeth-testnet-v2.blockscout.com" },
        rpcs := ["https://carrot.megaeth.com/rpc"],
        legacyGas := false }) ]

/-- getChain of src/lib/chains.js: `chains[chainName.toLowerCase()]`, throwing
"Unsupported chain: ..." when the key is absent.  The registry is passed
explicitly (in JS it is the module-level `chains` object). -/
def getChain (reg : Registry) (chainName : String) : Except String Chain :=
  match regLookup (lowerStr chainName) reg with
  | some c => Except.ok c
  | none =>
      Except.error ("Unsupported chain: " ++ chainName ++ ". Supported chains: "
        ++ String.intercalate ", " (reg.map Prod.fst))

/-- getExplorerTxUrl of src/lib/chains.js: explorer base URL ++ "/tx/" ++ hash.
In JS a config without an explorer field makes the access throw; modelled by
requiring the explorer to be present. -/
def getExplorerTxUrl (reg : Registry) (chainName : String) (txHash : String) : Except String String :=
  match getChain reg chainName with
  | Except.error e => Except.error e
  | Except.ok c =>
      match c.explorer with
      | some ex => Except.ok (ex.url ++ "/tx/" ++ txHash)
      | none => Except.error "TypeError: explorer is undefined"

/- ## Gas estimator (src/lib/gas.js) -/

/-- An unsigned transaction request as assembled by transfer.js for the
gas-limit simulation.  `data`, when present, stands for the ABI-encoded
ERC20 transfer(recipient, amount) call (encodeFunctionData is an external
capability; only the encoded pair is tracked).  The JS field `to` is named
toAddr because `to` is reserved in Lean. -/
structure TxRequest where
  toAddr : String
  value : Nat
  data : Option (String × Nat)
  account : String
deriving Repr, DecidableEq

/-- A transaction as reported inside a fetched block (only the fee fields
gas.js inspects).  A field is none when absent on the JS object. -/
structure BlockTx where
  maxPriorityFeePerGas : Option Nat
  maxFeePerGas : Option Nat
deriving Repr, DecidableEq

/-- A block as returned by client.getBlock (only the fields gas.js reads). -/
structure Block where
  baseFeePerGas : Option Nat
  transactions : List BlockTx
deriving Repr, DecidableEq

/-- Oracle for the viem public client: each RPC read used by gas.js and
transfer.js is a deterministic Except-valued outcome; Except.error is a
thrown error with its message. -/
structure RpcClient where
  getBlockLatest : Except String Block
  getBlockNumber : Except String Nat
  getBlockAt : Int → Except String Block
  getGasPrice : Except String Nat
  estimateGasCall : TxRequest → Except String Nat

/-- The variant tag of a fee envelope: the `type` field of a gas estimate. -/
inductive GasType where
  | eip1559
  | legacy
deriving Repr, DecidableEq

/-- A fee envelope as returned by estimateGas: the `type`, wei fee fields and
(on the eip1559 path) the observed base fee.  gasPrice on the eip1559 path
duplicates maxFeePerGas for backward compatibility, as in the source. -/
structure GasEstimate where
  type : GasType
  gasPrice : Nat
  maxFeePerGas : Nat
  maxPriorityFeePerGas : Nat
  baseFeePerGas : Option Nat
deriving Repr, DecidableEq

/-- Options accepted by estimateGas.  In JS, fields missing from the options
object take the defaults; callers of the model pass them explicitly
(defaultGasOptions below matches the JS defaults). -/
structure GasOptions where
  safetyMargin : Nat
  priorityFeePercentile : Nat
  gasPrice : Option Nat
deriving Repr, DecidableEq

/-- The JS default options of estimateGas: safetyMargin 2, percentile 75, no
gas-price override. -/
def defaultGasOptions : GasOptions :=
  { safetyMargin := 2, priorityFeePercentile := 75, gasPrice := none }

/-- isLegacyGasChain of src/lib/gas.js: true when getChain succeeds and the
config has legacyGas === true; false when resolution throws. -/
def isLegacyGasChain (reg : Registry) (chainName : String) : Bool :=
  match getChain reg chainName with
  | Except.ok c => c.legacyGas
  | Except.error _ => false

/-- estimateLegacyGas of src/lib/gas.js: use the override when one was
supplied (the JS test is `gasPriceOverride !== undefined`, so an override of
0 is honoured), otherwise read the network gas price; a failed read throws
"Failed to estimate legacy gas: ...". -/
def estimateLegacyGas (client : RpcClient) (gasPriceOverride : Option Nat) :
    Except String GasEstimate :=
  match gasPriceOverride with
  | some gp =>
      Except.ok { type := GasType.legacy, gasPrice := gp, maxFeePerGas := gp,
                  maxPriorityFeePerGas := 0, baseFeePerGas := none }
  | none =>
      match client.getGasPrice with
      | Except.ok gp =>
          Except.ok { type := GasType.legacy, gasPrice := gp, maxFeePerGas := gp,
                      maxPriorityFeePerGas := 0, baseFeePerGas := none }
      | Except.error e => Except.error ("Failed to estimate legacy gas: " ++ e)

/-- The per-block sampling loop body of estimateMaxPriorityFeePerGas: for
each of 10 iterations it fetches block startBlock + 2*i (failed fetches are
skipped), and from the first 10 transactions of a non-empty block collects
maxPriorityFeePerGas of every transaction whose maxPriorityFeePerGas and
maxFeePerGas are both present and non-zero (the JS guard
`tx.maxPriorityFeePerGas && tx.maxFeePerGas` treats 0n as falsy). -/
def sampleWindowFees (client : RpcClient) (startBlock : Int) : List Nat :=
  (List.range 10).foldl
    (fun acc i =>
      match client.getBlockAt (startBlock + 2 * (i : Int)) with
      | Except.error _ => acc
      | Except.ok block =>
          if block.transactions.length > 0 then
            acc ++ (block.transactions.take 10).filterMap
              (fun tx =>
                match tx.maxPriorityFeePerGas, tx.maxFeePerGas with
                | some p, some f => if p ≠ 0 ∧ f ≠ 0 then some p else none
                | _, _ => none)
          else acc)
    []

/-- estimateMaxPriorityFeePerGas of src/lib/gas.js: sample priority fees from
every other of the last 20 blocks; with no usable data fall back to 2 gwei
(2,000,000,000 wei); otherwise sort ascending, pick index
floor(percentile/100 * (n-1)), and floor the result at 0.1 gwei
(100,000,000 wei).  The enclosing try/catch turns any thrown error
(e.g. a failed getBlockNumber) into the same 2 gwei default. -/
def estimateMaxPriorityFeePerGas (client : RpcClient) (percentile : Nat) : Nat :=
  match client.getBlockNumber with
  | Except.error _ => 2000000000
  | Except.ok latestBlockNumber =>
      let startBlock : Int := (latestBlockNumber : Int) - 20 + 1
      let priorityFees := sampleWindowFees client startBlock
      if priorityFees.length = 0 then
        2000000000
      else
        let sorted := priorityFees.insertionSort (fun a b => a ≤ b)
        let index := percentile * (priorityFees.length - 1) / 100
        let selectedFee := sorted.getD index 0
        if selectedFee > 100000000 then selectedFee else 100000000

/-- The try-block body of estimateEIP1559Gas: read the latest block; with no
base fee fall back to the legacy path (no override); otherwise price the
envelope as maxFeePerGas = safetyMargin * baseFee + sampled priority fee. -/
def estimateEIP1559GasBody (client : RpcClient) (safetyMargin percentile : Nat) :
    Except String GasEstimate :=
  match client.getBlockLatest with
  | Except.error e => Except.error e
  | Except.ok latestBlock =>
      match latestBlock.baseFeePerGas with
      | none => estimateLegacyGas client none
      | some baseFeePerGas =>
          let maxPriorityFeePerGas := estimateMaxPriorityFeePerGas client percentile
          let maxFeePerGas := baseFeePerGas * safetyMargin + maxPriorityFeePerGas
          Except.ok { type := GasType.eip1559,
                      gasPrice := maxFeePerGas,
                      maxFeePerGas := maxFeePerGas,
                      maxPriorityFeePerGas := maxPriorityFeePerGas,
                      baseFeePerGas := some baseFeePerGas }

/-- estimateEIP1559Gas of src/lib/gas.js: run the try body; on a thrown error
retry once on the legacy path, and if that also fails throw
"Failed to estimate gas: ..." carrying the original message. -/
def estimateEIP1559Gas (client : RpcClient) (safetyMargin percentile : Nat) :
    Except String GasEstimate :=
  match estimateEIP1559GasBody client safetyMargin percentile with
  | Except.ok r => Except.ok r
  | Except.error e =>
      match estimateLegacyGas client none with
      | Except.ok r => Except.ok r
      | Except.error _ => Except.error ("Failed to estimate gas: " ++ e)

/-- estimateGas of src/lib/gas.js: dispatch on isLegacyGasChain; the legacy
path receives only the gas-price override, the eip1559 path only the safety
margin and percentile. -/
def estimateGas (reg : Registry) (client : RpcClient) (chainName : String)
    (options : GasOptions) : Except String GasEstimate :=
  if isLegacyGasChain reg chainName then
    estimateLegacyGas client options.gasPrice
  else
    estimateEIP1559Gas client options.safetyMargin options.priorityFeePercentile

/-- estimateGasLimit of src/lib/gas.js: simulate the transaction, add a 20%
buffer (gasEstimate / 5n, truncating division); a failed simulation throws
"Failed to estimate gas limit: ...". -/
def estimateGasLimit (client : RpcClient) (transaction : TxRequest) :
    Except String Nat :=
  match client.estimateGasCall transaction with
  | Except.ok gasEstimate => Except.ok (gasEstimate + gasEstimate / 5)
  | Except.error e => Except.error ("Failed to estimate gas limit: " ++ e)

/-- The transaction gas-parameter object built by buildGasParams: a field is
none when absent from the JS object. -/
structure GasParams where
  gasPrice : Option Nat
  maxFeePerGas : Option Nat
  maxPriorityFeePerGas : Option Nat
deriving Repr, DecidableEq

/-- buildGasParams of src/lib/gas.js: a legacy estimate yields only gasPrice;
any other estimate yields only maxFeePerGas and maxPriorityFeePerGas. -/
def buildGasParams (gasEstimate : GasEstimate) : GasParams :=
  match gasEstimate.type with
  | GasType.legacy =>
      { gasPrice := some gasEstimate.gasPrice,
        maxFeePerGas := none, maxPriorityFeePerGas := none }
  | GasType.eip1559 =>
      { gasPrice := none,
        maxFeePerGas := some gasEstimate.maxFeePerGas,
        maxPriorityFeePerGas := some gasEstimate.maxPriorityFeePerGas }

/- ## Transfer orchestration (src/transfer.js main) -/

/-- The network-touching pipeline stages of transfer.js, in execution order.
sendTx covers viem sendTransaction / writeContract, which builds, signs and
broadcasts the transaction. -/
inductive Step where
  | tokenInfoQuery
  | balanceQuery
  | gasEstimation
  | gasLimitSimulation
  | sendTx
deriving Repr, DecidableEq

/-- Token metadata returned by getTokenInfo of transfer.js. -/
structure TokenInfo where
  symbol : String
  decimals : Nat
  name : String
deriving Repr, DecidableEq

/-- The environment of one transfer.js run: the public client plus the
outcomes of the remaining external calls (wallet account address, native
balance read, ERC20 metadata and balance reads, and the send itself). -/
structure TransferEnv where
  client : RpcClient
  walletAddress : String
  getBalance : Except String Nat
  tokenInfo : Except String TokenInfo
  tokenBalance : Except String Nat
  send : Except String String

/-- The distinct failure exits of transfer.js main (exitWithError calls and
the surrounding catch).  insufficientBalance carries the held and required
amounts in base units (the JS message renders them with formatEther /
decimal scaling, which is display formatting).  `held` stands for the JS
message's Have value (`have` is reserved in Lean). -/
inductive TransferError where
  | insufficientBalance (held required : Nat)
  | gasEstimationFailed (msg : String)
  | transferFailed (msg : String)
  | unexpected (msg : String)
deriving Repr, DecidableEq

/-- A transfer intent as parsed by transfer.js: chain, recipient, amount
already scaled to base units (parseEther / parseUnits are external viem
capabilities), and the optional ERC20 token contract address. -/
structure TransferIntent where
  chainName : String
  toAddr : String
  amount : Nat
  tokenAddress : Option String
deriving Repr, DecidableEq

/-- The success output of transfer.js (display formatting and explorer URL
rendering omitted). -/
structure TxResult where
  txHash : String
  gasType : GasType
  gasLimit : Nat
  gasParams : GasParams
deriving Repr, DecidableEq

/-- The unsigned transaction transfer.js assembles for the gas-limit
simulation: value transfer to the recipient for native sends, encoded
transfer(to, amount) call against the token contract for ERC20 sends. -/
def gasLimitTxOf (env : TransferEnv) (intent : TransferIntent) : TxRequest :=
  match intent.tokenAddress with
  | none =>
      { toAddr := intent.toAddr, value := intent.amount, data := none,
        account := env.walletAddress }
  | some tokenAddress =>
      { toAddr := tokenAddress, value := 0,
        data := some (intent.toAddr, intent.amount),
        account := env.walletAddress }

/-- The tail of transfer.js main after the balance check passed: gas
estimation (estimateGas then estimateGasLimit, one try/catch exiting with
"Gas estimation failed"), then the send (its failure exits with
"Transfer failed").  The confirmation prompt is skipped (the --yes / --json
paths return true).  Each pair is the outcome together with the
network-touching steps executed. -/
def runTransferTail (reg : Registry) (env : TransferEnv)
    (intent : TransferIntent) (gasOptions : GasOptions)
    (stepsSoFar : List Step) : Except TransferError TxResult × List Step :=
  match estimateGas reg env.client intent.chainName gasOptions with
  | Except.error e =>
      (Except.error (TransferError.gasEstimationFailed e),
       stepsSoFar ++ [Step.gasEstimation])
  | Except.ok gasEstimate =>
      match estimateGasLimit env.client (gasLimitTxOf env intent) with
      | Except.error e =>
          (Except.error (TransferError.gasEstimationFailed e),
           stepsSoFar ++ [Step.gasEstimation, Step.gasLimitSimulation])
      | Except.ok gasLimit =>
          match env.send with
          | Except.error e =>
              (Except.error (TransferError.transferFailed e),
               stepsSoFar ++ [Step.gasEstimation, Step.gasLimitSimulation, Step.sendTx])
          | Except.ok txHash =>
              (Except.ok { txHash := txHash, gasType := gasEstimate.type,
                           gasLimit := gasLimit,
                           gasParams := buildGasParams gasEstimate },
               stepsSoFar ++ [Step.gasEstimation, Step.gasLimitSimulation, Step.sendTx])

/-- transfer.js main, from chain resolution onward (argument and address
validation use external viem isAddress and happen before any network call).
Native path: read the native balance and fail with the insufficient-balance
error when it is below the amount.  Token path: read token metadata then the
token balance, with the same insufficiency check.  Errors thrown by the
reads are caught by the outer catch ("Unexpected error"), with the message
prefixes added by getTokenInfo / checkTokenBalance. -/
def runTransfer (reg : Registry) (env : TransferEnv) (intent : TransferIntent)
    (gasOptions : GasOptions) : Except TransferError TxResult × List Step :=
  match getChain reg intent.chainName with
  | Except.error e => (Except.error (TransferError.unexpected e), [])
  | Except.ok _chain =>
      match intent.tokenAddress with
      | none =>
          match env.getBalance with
          | Except.error e =>
              (Except.error (TransferError.unexpected e), [Step.balanceQuery])
          | Except.ok balance =>
              if balance < intent.amount then
                (Except.error (TransferError.insufficientBalance balance intent.amount),
                 [Step.balanceQuery])
              else
                runTransferTail reg env intent gasOptions [Step.balanceQuery]
      | some _tokenAddress =>
          match env.tokenInfo with
          | Except.error e =>
              (Except.error (TransferError.unexpected ("Failed to get token info: " ++ e)),
               [Step.tokenInfoQuery])
          | Except.ok _info =>
              match env.tokenBalance with
              | Except.error e =>
                  (Except.error (TransferError.unexpected ("Failed to check token balance: " ++ e)),
                   [Step.tokenInfoQuery, Step.balanceQuery])
              | Except.ok tokenBalance =>
                  if tokenBalance < intent.amount then
                    (Except.error (TransferError.insufficientBalance tokenBalance intent.amount),
                     [Step.tokenInfoQuery, Step.balanceQuery])
                  else
                    runTransferTail reg env intent gasOptions
                      [Step.tokenInfoQuery, Step.balanceQuery]

/- ## Chain management (src/add-chain.js, src/remove-chain.js) -/

/-- Helper for the regex replace of add-chain.js: inRun records whether the
previous character belonged to a whitespace run whose '-' was already
emitted, so each maximal run contributes exactly one '-'. -/
def squashWsAux (inRun : Bool) : List Char → List Char
  | [] => []
  | c :: rest =>
      if c.isWhitespace then
        if inRun then squashWsAux true rest
        else '-' :: squashWsAux true rest
      else c :: squashWsAux false rest

/-- The regex replace of add-chain.js, `replace(/\s+/g, '-')`: each maximal
run of whitespace becomes a single '-'. -/
def squashWhitespace (cs : List Char) : List Char :=
  squashWsAux false cs

/-- The storage key add-chain.js derives from a chain name:
`name.toLowerCase().replace(/\s+/g, '-')`. -/
def chainKeyOf (name : String) : String :=
  String.mk (squashWhitespace (lowerStr name).data)

/-- The parsed options of add-chain.js (parseArgs result): positional name,
chainId and rpc plus the optional flags, with their JS defaults. -/
structure AddOpts where
  name : String
  chainId : Int
  rpc : String
  nativeToken : String
  decimals : Nat
  explorer : Option String
  legacyGas : Bool
deriving Repr, DecidableEq

/-- The chain config object add-chain.js builds and persists.  URL validity
(`new URL(...)` succeeding) is an external runtime capability, passed in as
a predicate; an invalid explorer URL is skipped with a warning. -/
def chainConfigOf (urlValid : String → Bool) (opts : AddOpts) : Chain :=
  { chainId := opts.chainId.toNat,
    name := opts.name,
    nativeToken := { symbol := opts.nativeToken, decimals := opts.decimals },
    explorer :=
      match opts.explorer with
      | some u =>
          if urlValid u then
            some { name := opts.name ++ " Explorer", url := u }
          else none
      | none => none,
    rpcs := [opts.rpc],
    legacyGas := opts.legacyGas }

/-- Assignment `userChains[chainKey] = config`: overwrite an existing entry,
otherwise append a new one. -/
def assocSet (user : Registry) (key : String) (config : Chain) : Registry :=
  if (regLookup key user).isSome then
    user.map (fun p => if p.1 = key then (key, config) else p)
  else
    user ++ [(key, config)]

/-- add-chain.js main on an already-loaded user set: the validation chain
(missing arguments, then chainId, then RPC URL), then store the built config
under the derived key.  The returned registry is the persisted user set. -/
def addChain (urlValid : String → Bool) (user : Registry) (opts : AddOpts) :
    Except String Registry :=
  if opts.name = "" ∨ opts.chainId = 0 ∨ opts.rpc = "" then
    Except.error "Missing required arguments"
  else if opts.chainId ≤ 0 then
    Except.error "Invalid chainId"
  else if ¬ urlValid opts.rpc then
    Except.error "Invalid RPC URL"
  else
    Except.ok (assocSet user (chainKeyOf opts.name) (chainConfigOf urlValid opts))

/-- Deletion `delete obj[key]` on a registry object: drop the entry (or
entries) stored under the key. -/
def regErase (key : String) : Registry → Registry
  | [] => []
  | (k, c) :: rest =>
      if k = key then regErase key rest else (k, c) :: regErase key rest

/-- remove-chain.js main on an already-loaded user set: the queried name is
lowercased; a name absent from the user set fails (only user-defined chains
can be removed — there is no separate built-in check), a present one is
deleted and the set persisted. -/
def removeChain (user : Registry) (name : String) : Except String Registry :=
  let chainName := lowerStr name
  if (regLookup chainName user).isSome then
    Except.ok (regErase chainName user)
  else
    Except.error ("Chain \x22" ++ chainName
      ++ "\x22 not found in user config (only user-defined chains can be removed)")

/-- Modelled from the spec: the deployed lib/chains.js merges the built-in
chains with the persisted user-defined chains at load time (src only ships
chains.js variants without user-chain support, while list-chains.js imports
getUserChainsPath from lib/chains.js, so the merging module itself is
missing).  Per the spec, list() "merges built-ins with user-defined
entries, user-defined entries taking precedence on name collision"; an
association-list lookup finds the user entry first. -/
def mergedChains (user : Registry) : Registry :=
  user ++ builtinChains

/-- Modelled from the spec: `resolve(name)` is getChain over the merged
view — case-insensitive lookup failing with the unknown-chain error when
the name is absent from both sets. -/
def resolveChain (user : Registry) (name : String) : Except String Chain :=
  getChain (mergedChains user) name

/- ## Concrete fixtures for evaluating the definitions -/

/-- A client on which every RPC read fails. -/
def downClient : RpcClient :=
  { getBlockLatest := Except.error "connection refused",
    getBlockNumber := Except.error "connection refused",
    getBlockAt := fun _ => Except.error "connection refused",
    getGasPrice := Except.error "connection refused",
    estimateGasCall := fun _ => Except.error "connection refused" }

/-- A client whose latest block carries base fee 10 and whose sampling
window is unreachable (getBlockNumber fails), so priority-fee sampling
degrades to the 2 gwei default. -/
def baseFee10Client : RpcClient :=
  { downClient with
    getBlockLatest := Except.ok { baseFeePerGas := some 10, transactions := [] } }

/-- A client whose latest block carries no base fee and whose network gas
price reads 55. -/
def noBaseFeeClient : RpcClient :=
  { downClient with
    getBlockLatest := Except.ok { baseFeePerGas := none, transactions := [] },
    getGasPrice := Except.ok 55 }

/-- A client with a working simulate-call (raw estimate 21000) and a
network gas price of 7. -/
def okGasClient : RpcClient :=
  { downClient with
    estimateGasCall := fun _ => Except.ok 21000,
    getGasPrice := Except.ok 7 }

/-- The lightlink config of the chains.js variant that ships it: the one
built-in legacy-gas chain. -/
def lightlinkChain : Chain :=
  { chainId := 1890, name := "LightLink",
    nativeToken := { symbol := "ETH", decimals := 18 },
    explorer := some { name := "LightLink Explorer", url := "https://phoenix.lightlink.io" },
    rpcs := ["https://replicator.phoenix.lightlink.io/rpc/v1",
             "https://1890.rpc.thirdweb.com",
             "https://endpoints.omniatech.io/v1/lightlink/phoenix/public"],
    legacyGas := true }

/-- A registry holding only the legacy-gas lightlink chain. -/
def lightlinkReg : Registry := [("lightlink", lightlinkChain)]

/-- The envelope estimateGas produces on baseFee10Client with the default
options: maxFee = 10 * 2 + 2 gwei. -/
def concreteEip1559Est : GasEstimate :=
  { type := GasType.eip1559, gasPrice := 2000000020, maxFeePerGas := 2000000020,
    maxPriorityFeePerGas := 2000000000, baseFeePerGas := some 10 }

/-- An environment whose wallet holds 0.5 native units (in wei). -/
def envPoor : TransferEnv :=
  { client := downClient, walletAddress := "0xself",
    getBalance := Except.ok 500000000000000000,
    tokenInfo := Except.error "unused", tokenBalance := Except.error "unused",
    send := Except.error "unused" }

/-- A native transfer intent of 1.0 units (in wei) on base. -/
def intentOneEth : TransferIntent :=
  { chainName := "base", toAddr := "0xfriend",
    amount := 1000000000000000000, tokenAddress := none }

/-- An environment holding 100 base units of the token. -/
def envPoorToken : TransferEnv :=
  { envPoor with
    tokenInfo := Except.ok { symbol := "USDC", decimals := 6, name := "USD Coin" },
    tokenBalance := Except.ok 100 }

/-- A token transfer intent of 500 token base units on base. -/
def intentToken : TransferIntent :=
  { chainName := "base", toAddr := "0xfriend",
    amount := 500, tokenAddress := some "0xtoken" }

/-- An environment with ample native balance, a priced fee feed
(baseFee10Client) and a failing simulate-call. -/
def envGasFail : TransferEnv :=
  { client := baseFee10Client, walletAddress := "0xself",
    getBalance := Except.ok 2000000000000000000,
    tokenInfo := Except.error "unused", tokenBalance := Except.error "unused",
    send := Except.error "unreached" }

/-- A native transfer intent small enough to pass the balance check. -/
def intentSmall : TransferIntent :=
  { chainName := "base", toAddr := "0xfriend",
    amount := 1000, tokenAddress := none }

/-- Options selecting the zero gas-price override (--gas-price 0). -/
def zeroGasOptions : GasOptions :=
  { safetyMargin := 2, priorityFeePercentile := 75, gasPrice := some 0 }

/-- The URL-validity oracle that accepts every string. -/
def allUrlsValid : String → Bool := fun _ => true

/-- Scenario D descriptor: add("testnet", chainId 99999, rpc). -/
def testnetOpts : AddOpts :=
  { name := "testnet", chainId := 99999, rpc := "https://rpc.testnet.io",
    nativeToken := "ETH", decimals := 18, explorer := none, legacyGas := false }

/-- A user descriptor whose name shadows the built-in base chain. -/
def shadowBaseOpts : AddOpts :=
  { name := "base", chainId := 99999, rpc := "https://rpc.example.io",
    nativeToken := "ETH", decimals := 18, explorer := none, legacyGas := false }

/-- The built-in base config (the second entry of builtinChains). -/
def baseBuiltinChain : Chain :=
  { chainId := 8453, name := "Base",
    nativeToken := { symbol := "ETH", decimals := 18 },
    explorer := some { name := "BaseScan", url := "https://basescan.org" },
    rpcs := ["https://mainnet.base.org",
             "https://base.publicnode.com",
             "https://base.llamarpc.com"],
    legacyGas := false }

/- ## Helper lemmas -/

/-- Every envelope estimateLegacyGas returns is tagged legacy. -/
theorem estimateLegacyGas_type (client : RpcClient) (ov : Option Nat)
    (est : GasEstimate) (h : estimateLegacyGas client ov = Except.ok est) :
    est.type = GasType.legacy := by
  unfold estimateLegacyGas at h
  cases ov with
  | some gp =>
      simp only [Except.ok.injEq] at h
      rw [← h]
  | none =>
      cases hgp : client.getGasPrice with
      | ok gp =>
          rw [hgp] at h
          simp only [Except.ok.injEq] at h
          rw [← h]
      | error e =>
          rw [hgp] at h
          cases h

/-- The sampled priority fee never drops below the 0.1 gwei floor. -/
theorem estimateMaxPriorityFeePerGas_min (client : RpcClient) (percentile : Nat) :
    100000000 ≤ estimateMaxPriorityFeePerGas client percentile := by
  unfold estimateMaxPriorityFeePerGas
  cases hbn : client.getBlockNumber with
  | error e => norm_num
  | ok latest =>
      dsimp only
      split
      · norm_num
      · split
        · next hgt => omega
        · norm_num

/-- C1: every fee estimate of estimateGas that carries the eip1559 tag
prices maxFeePerGas as baseFeePerGas * safetyMargin + maxPriorityFeePerGas
(so maxFeePerGas is at least that sum), and its maxPriorityFeePerGas is at
least the 0.1 gwei (100,000,000 wei) floor. -/
theorem eip1559_estimate_pricing (reg : Registry) (client : RpcClient)
    (chainName : String) (options : GasOptions) (est : GasEstimate)
    (hok : estimateGas reg client chainName options = Except.ok est)
    (htype : est.type = GasType.eip1559) :
    ∃ baseFee, est.baseFeePerGas = some baseFee ∧
      est.maxFeePerGas = baseFee * options.safetyMargin + est.maxPriorityFeePerGas ∧
      baseFee * options.safetyMargin + est.maxPriorityFeePerGas ≤ est.maxFeePerGas ∧
      100000000 ≤ est.maxPriorityFeePerGas := by
  unfold estimateGas at hok
  by_cases hleg : isLegacyGasChain reg chainName
  · rw [if_pos hleg] at hok
    have hty := estimateLegacyGas_type client options.gasPrice est hok
    rw [hty] at htype
    simp at htype
  · rw [if_neg hleg] at hok
    unfold estimateEIP1559Gas at hok
    cases hbody : estimateEIP1559GasBody client options.safetyMargin options.priorityFeePercentile with
    | ok r =>
        rw [hbody] at hok
        simp only [Except.ok.injEq] at hok
        subst hok
        unfold estimateEIP1559GasBody at hbody
        cases hblk : client.getBlockLatest with
        | error e => rw [hblk] at hbody; cases hbody
        | ok blk =>
            rw [hblk] at hbody
            dsimp only at hbody
            cases hbase : blk.baseFeePerGas with
            | none =>
                rw [hbase] at hbody
                have hty := estimateLegacyGas_type client none r hbody
                rw [hty] at htype
                simp at htype
            | some b =>
                rw [hbase] at hbody
                dsimp only at hbody
                simp only [Except.ok.injEq] at hbody
                refine ⟨b, ?_, ?_, ?_, ?_⟩
                · rw [← hbody]
                · rw [← hbody]
                · rw [← hbody]
                · rw [← hbody]
                  exact estimateMaxPriorityFeePerGas_min client options.priorityFeePercentile
    | error e =>
        rw [hbody] at hok
        cases hfall : estimateLegacyGas client none with
        | ok r =>
            rw [hfall] at hok
            simp only [Except.ok.injEq] at hok
            subst hok
            have hty := estimateLegacyGas_type client none r hfall
            rw [hty] at htype
            simp at htype
        | error e2 => rw [hfall] at hok; cases hok

/-- C1 witness: on baseFee10Client with the default options the estimate is
concreteEip1559Est, and the pricing law holds for it. -/
theorem eip1559_estimate_pricing_witness :
    ∃ baseFee, concreteEip1559Est.baseFeePerGas = some baseFee ∧
      concreteEip1559Est.maxFeePerGas =
        baseFee * defaultGasOptions.safetyMargin + concreteEip1559Est.maxPriorityFeePerGas ∧
      baseFee * defaultGasOptions.safetyMargin + concreteEip1559Est.maxPriorityFeePerGas ≤
        concreteEip1559Est.maxFeePerGas ∧
      100000000 ≤ concreteEip1559Est.maxPriorityFeePerGas :=
  eip1559_estimate_pricing builtinChains baseFee10Client "base" defaultGasOptions
    concreteEip1559Est rfl rfl

/-- C4: whenever priority-fee sampling sees no usable transaction data or a
thrown error (a failed block-number read), estimateMaxPriorityFeePerGas
returns the fixed 2 gwei default, and the surrounding eip1559 estimate
still completes; with a latest base fee of 10 and safety margin 2 the
resulting maxFeePerGas is 2 * 10 + 2,000,000,000. -/
theorem priorityFee_default_fallback (client : RpcClient) (percentile : Nat)
    (hwin : (∃ e, client.getBlockNumber = Except.error e) ∨
      (∀ latest, client.getBlockNumber = Except.ok latest →
        sampleWindowFees client ((latest : Int) - 20 + 1) = [])) :
    estimateMaxPriorityFeePerGas client percentile = 2000000000 ∧
    (∀ (reg : Registry) (chainName : String) (options : GasOptions) (blk : Block),
      isLegacyGasChain reg chainName = false →
      client.getBlockLatest = Except.ok blk →
      blk.baseFeePerGas = some 10 →
      options.safetyMargin = 2 →
      options.priorityFeePercentile = percentile →
      estimateGas reg client chainName options =
        Except.ok { type := GasType.eip1559, gasPrice := 2000000020,
                    maxFeePerGas := 2000000020,
                    maxPriorityFeePerGas := 2000000000,
                    baseFeePerGas := some 10 }) := by
  have hfee : estimateMaxPriorityFeePerGas client percentile = 2000000000 := by
    unfold estimateMaxPriorityFeePerGas
    cases hbn : client.getBlockNumber with
    | error e => rfl
    | ok latest =>
        rcases hwin with ⟨e, he⟩ | hemp
        · rw [hbn] at he; cases he
        · have h0 := hemp latest hbn
          dsimp only
          rw [h0]
          rfl
  refine ⟨hfee, ?_⟩
  intro reg chainName options blk hleg hblk hbase hsm hpp
  unfold estimateGas estimateEIP1559Gas estimateEIP1559GasBody
  simp only [hleg, hblk, hbase, hsm, hpp, hfee]
  norm_num
/-- C4 witness: baseFee10Client has a failed block-number read; sampling
returns the 2 gwei default and the default-option estimate on a chain
resolving off the eip1559 path is priced 2 * 10 + 2 gwei. -/
theorem priorityFee_default_fallback_witness :
    estimateMaxPriorityFeePerGas baseFee10Client 75 = 2000000000 ∧
    estimateGas builtinChains baseFee10Client "base" defaultGasOptions =
      Except.ok { type := GasType.eip1559, gasPrice := 2000000020,
                  maxFeePerGas := 2000000020,
                  maxPriorityFeePerGas := 2000000000,
                  baseFeePerGas := some 10 } :=
  have h := priorityFee_default_fallback baseFee10Client 75
    (Or.inl ⟨"connection refused", rfl⟩)
  ⟨h.1, h.2 builtinChains "base" defaultGasOptions
    { baseFeePerGas := some 10, transactions := [] } rfl rfl rfl rfl rfl⟩

/-- C5: a legacy-path estimate with an explicit zero gas-price override
yields the all-zero legacy envelope, and the result does not depend on the
client at all — no priority-fee sampling and no network gas-price read. -/
theorem legacy_zero_override_gasless (reg : Registry) (client clientB : RpcClient)
    (chainName : String) (options : GasOptions)
    (hleg : isLegacyGasChain reg chainName = true)
    (hov : options.gasPrice = some 0) :
    estimateGas reg client chainName options =
      Except.ok { type := GasType.legacy, gasPrice := 0, maxFeePerGas := 0,
                  maxPriorityFeePerGas := 0, baseFeePerGas := none } ∧
    estimateGas reg client chainName options =
      estimateGas reg clientB chainName options := by
  have h : ∀ cl : RpcClient, estimateGas reg cl chainName options =
      Except.ok { type := GasType.legacy, gasPrice := 0, maxFeePerGas := 0,
                  maxPriorityFeePerGas := 0, baseFeePerGas := none } := by
    intro cl
    unfold estimateGas estimateLegacyGas
    rw [hleg, hov]
    rfl
  exact ⟨h client, (h client).trans (h clientB).symm⟩
/-- C5 witness: on the lightlink registry with a zero override, two clients
with different gas-price feeds both give the zero legacy envelope. -/
theorem legacy_zero_override_gasless_witness :
    estimateGas lightlinkReg downClient "lightlink" zeroGasOptions =
      Except.ok { type := GasType.legacy, gasPrice := 0, maxFeePerGas := 0,
                  maxPriorityFeePerGas := 0, baseFeePerGas := none } ∧
    estimateGas lightlinkReg downClient "lightlink" zeroGasOptions =
      estimateGas lightlinkReg okGasClient "lightlink" zeroGasOptions :=
  legacy_zero_override_gasless lightlinkReg downClient okGasClient
    "lightlink" zeroGasOptions rfl rfl

/-- C6: on the eip1559 path, a latest block without a base fee makes the
estimator fall back to the legacy path, returning the legacy envelope
priced from the current network gas price. -/
theorem eip1559_missing_baseFee_fallback (reg : Registry) (client : RpcClient)
    (chainName : String) (options : GasOptions) (blk : Block) (gp : Nat)
    (hleg : isLegacyGasChain reg chainName = false)
    (hblk : client.getBlockLatest = Except.ok blk)
    (hbase : blk.baseFeePerGas = none)
    (hgp : client.getGasPrice = Except.ok gp) :
    estimateGas reg client chainName options =
      Except.ok { type := GasType.legacy, gasPrice := gp, maxFeePerGas := gp,
                  maxPriorityFeePerGas := 0, baseFeePerGas := none } := by
  unfold estimateGas estimateEIP1559Gas estimateEIP1559GasBody estimateLegacyGas
  simp [hleg, hblk, hbase, hgp]
/-- C6 witness: a client with no base fee in the latest block and a network
gas price of 55 gives the legacy envelope priced 55. -/
theorem eip1559_missing_baseFee_fallback_witness :
    estimateGas builtinChains noBaseFeeClient "base" defaultGasOptions =
      Except.ok { type := GasType.legacy, gasPrice := 55, maxFeePerGas := 55,
                  maxPriorityFeePerGas := 0, baseFeePerGas := none } :=
  eip1559_missing_baseFee_fallback builtinChains noBaseFeeClient "base"
    defaultGasOptions { baseFeePerGas := none, transactions := [] } 55
    rfl rfl rfl rfl

/-- C9: for every estimate estimateGas produces, buildGasParams emits only
the gasPrice field on a legacy estimate and only the maxFeePerGas and
maxPriorityFeePerGas fields otherwise — never both pricing styles. -/
theorem buildGasParams_no_mixing (reg : Registry) (client : RpcClient)
    (chainName : String) (options : GasOptions) (est : GasEstimate)
    (hok : estimateGas reg client chainName options = Except.ok est) :
    (est.type = GasType.legacy →
      buildGasParams est =
        { gasPrice := some est.gasPrice,
          maxFeePerGas := none, maxPriorityFeePerGas := none }) ∧
    (est.type ≠ GasType.legacy →
      buildGasParams est =
        { gasPrice := none,
          maxFeePerGas := some est.maxFeePerGas,
          maxPriorityFeePerGas := some est.maxPriorityFeePerGas }) := by
  constructor
  · intro h
    unfold buildGasParams
    rw [h]
  · intro h
    unfold buildGasParams
    cases hty : est.type with
    | legacy => exact absurd hty h
    | eip1559 => rfl
/-- C9 witness: the eip1559 estimate from baseFee10Client yields only the
two eip1559 fields. -/
theorem buildGasParams_no_mixing_witness :
    buildGasParams concreteEip1559Est =
      { gasPrice := none,
        maxFeePerGas := some concreteEip1559Est.maxFeePerGas,
        maxPriorityFeePerGas := some concreteEip1559Est.maxPriorityFeePerGas } :=
  (buildGasParams_no_mixing builtinChains baseFee10Client "base"
    defaultGasOptions concreteEip1559Est rfl).2 (by simp [concreteEip1559Est])

/-- C10: isLegacyGasChain is total on every registry and name: it is true
exactly when chain resolution succeeds with legacyGas true, and false
whenever resolution itself fails. -/
theorem isLegacyGasChain_total (reg : Registry) (chainName : String) :
    (isLegacyGasChain reg chainName = true ↔
      ∃ c, getChain reg chainName = Except.ok c ∧ c.legacyGas = true) ∧
    (∀ e, getChain reg chainName = Except.error e →
      isLegacyGasChain reg chainName = false) := by
  constructor
  · unfold isLegacyGasChain
    cases hg : getChain reg chainName with
    | ok c => simp [hg]
    | error e => simp [hg]
  · intro e he
    unfold isLegacyGasChain
    rw [he]
/-- C10 witness: on the empty registry resolution fails for "nochain" and
isLegacyGasChain returns false. -/
theorem isLegacyGasChain_total_witness :
    isLegacyGasChain [] "nochain" = false :=
  (isLegacyGasChain_total [] "nochain").2
    "Unsupported chain: nochain. Supported chains: " rfl

/-- C2: a transfer whose sender balance (native or token) is strictly below
the requested amount fails at the balance check with the
insufficient-balance error carrying the held and required amounts, and the
executed steps stop there: no gas estimation, no gas-limit simulation and
no send. -/
theorem insufficient_balance_stops_pipeline (reg : Registry)
    (env : TransferEnv) (intent : TransferIntent) (gasOptions : GasOptions)
    (c : Chain) (hchain : getChain reg intent.chainName = Except.ok c) :
    (∀ bal, intent.tokenAddress = none →
      env.getBalance = Except.ok bal →
      bal < intent.amount →
      runTransfer reg env intent gasOptions =
        (Except.error (TransferError.insufficientBalance bal intent.amount),
         [Step.balanceQuery])) ∧
    (∀ t info tbal, intent.tokenAddress = some t →
      env.tokenInfo = Except.ok info →
      env.tokenBalance = Except.ok tbal →
      tbal < intent.amount →
      runTransfer reg env intent gasOptions =
        (Except.error (TransferError.insufficientBalance tbal intent.amount),
         [Step.tokenInfoQuery, Step.balanceQuery])) := by
  constructor
  · intro bal htok hbal hlt
    unfold runTransfer
    simp only [hchain, htok, hbal, if_pos hlt]
  · intro t info tbal htok hinfo htbal hlt
    unfold runTransfer
    simp only [hchain, htok, hinfo, htbal, if_pos hlt]
/-- C2 witness: a wallet holding 0.5 units asked to send 1.0 native units,
and a wallet holding 100 token units asked to send 500, both stop at the
balance check with the insufficient-balance error. -/
theorem insufficient_balance_stops_pipeline_witness :
    runTransfer builtinChains envPoor intentOneEth defaultGasOptions =
      (Except.error (TransferError.insufficientBalance
         500000000000000000 1000000000000000000),
       [Step.balanceQuery]) ∧
    runTransfer builtinChains envPoorToken intentToken defaultGasOptions =
      (Except.error (TransferError.insufficientBalance 100 500),
       [Step.tokenInfoQuery, Step.balanceQuery]) :=
  ⟨(insufficient_balance_stops_pipeline builtinChains envPoor intentOneEth
      defaultGasOptions
      baseBuiltinChain rfl).1
      500000000000000000 rfl rfl (by norm_num [intentOneEth]),
   (insufficient_balance_stops_pipeline builtinChains envPoorToken intentToken
      defaultGasOptions
      baseBuiltinChain rfl).2
      "0xtoken" { symbol := "USDC", decimals := 6, name := "USD Coin" } 100
      rfl rfl rfl (by norm_num [intentToken])⟩

/-- C3: a successful simulate-call returning g makes estimateGasLimit
return exactly g + g / 5 (20% buffer under truncating division); a throwing
simulate-call fails the whole gas estimate, and in the transfer pipeline
that failure surfaces as the gas-estimation error with no send step
executed. -/
theorem gasLimit_buffer_and_simulation_failure (client : RpcClient)
    (tx : TxRequest) :
    (∀ g, client.estimateGasCall tx = Except.ok g →
      estimateGasLimit client tx = Except.ok (g + g / 5)) ∧
    (∀ e, client.estimateGasCall tx = Except.error e →
      estimateGasLimit client tx =
        Except.error ("Failed to estimate gas limit: " ++ e)) ∧
    (∀ (reg : Registry) (env : TransferEnv) (intent : TransferIntent)
       (gasOptions : GasOptions) (c : Chain) (bal : Nat) (est : GasEstimate) (e : String),
      getChain reg intent.chainName = Except.ok c →
      intent.tokenAddress = none →
      env.getBalance = Except.ok bal →
      intent.amount ≤ bal →
      env.client = client →
      gasLimitTxOf env intent = tx →
      estimateGas reg client intent.chainName gasOptions = Except.ok est →
      client.estimateGasCall tx = Except.error e →
      runTransfer reg env intent gasOptions =
        (Except.error (TransferError.gasEstimationFailed
           ("Failed to estimate gas limit: " ++ e)),
         [Step.balanceQuery, Step.gasEstimation, Step.gasLimitSimulation])) := by
  refine ⟨?_, ?_, ?_⟩
  · intro g hg
    unfold estimateGasLimit
    rw [hg]
  · intro e he
    unfold estimateGasLimit
    rw [he]
  · intro reg env intent gasOptions c bal est e hchain htok hbal hle hcl htx hest hsim
    have hnotlt : ¬ bal < intent.amount := Nat.not_lt.mpr hle
    unfold runTransfer runTransferTail
    simp only [hchain, htok, hbal, if_neg hnotlt, hcl, htx, hest]
    unfold estimateGasLimit
    rw [hsim]
    rfl
/-- C3 witness: a raw simulate estimate of 21000 is buffered to 25200, and
a failing simulate-call makes the transfer stop with the gas-estimation
error after the gas-limit simulation step. -/
theorem gasLimit_buffer_and_simulation_failure_witness :
    estimateGasLimit okGasClient (gasLimitTxOf envGasFail intentSmall) =
      Except.ok 25200 ∧
    runTransfer builtinChains envGasFail intentSmall defaultGasOptions =
      (Except.error (TransferError.gasEstimationFailed
         "Failed to estimate gas limit: connection refused"),
       [Step.balanceQuery, Step.gasEstimation, Step.gasLimitSimulation]) :=
  ⟨(gasLimit_buffer_and_simulation_failure okGasClient
      (gasLimitTxOf envGasFail intentSmall)).1 21000 rfl,
   (gasLimit_buffer_and_simulation_failure baseFee10Client
      (gasLimitTxOf envGasFail intentSmall)).2.2 builtinChains envGasFail
      intentSmall defaultGasOptions
      baseBuiltinChain
      2000000000000000000 concreteEip1559Est "connection refused"
      rfl rfl rfl (by norm_num [intentSmall]) rfl rfl rfl rfl⟩

/-- Lookup distributes over registry concatenation, preferring the left
part (user entries shadow built-ins in the merged view). -/
theorem regLookup_append (key : String) (l1 l2 : Registry) :
    regLookup key (l1 ++ l2) =
      match regLookup key l1 with
      | some c => some c
      | none => regLookup key l2 := by
  induction l1 with
  | nil => simp [regLookup]
  | cons hd tl ih =>
      obtain ⟨a, c⟩ := hd
      by_cases h : a = key
      · simp [regLookup, h]
      · simp [regLookup, h, ih]

/-- After overwriting an existing entry, lookup finds the new config. -/
theorem regLookup_map_set (user : Registry) (key : String) (c : Chain)
    (h : (regLookup key user).isSome = true) :
    regLookup key (user.map (fun p => if p.1 = key then (key, c) else p)) =
      some c := by
  induction user with
  | nil => simp [regLookup] at h
  | cons hd tl ih =>
      obtain ⟨a, b⟩ := hd
      simp only [List.map_cons]
      dsimp only
      by_cases ha : a = key
      · subst ha
        rw [if_pos rfl]
        simp [regLookup]
      · rw [if_neg ha]
        have h2 : (regLookup key tl).isSome = true := by
          simpa [regLookup, ha] using h
        simp [regLookup, ha, ih h2]

/-- Writing under a key makes lookup of that key return the written
config. -/
theorem regLookup_assocSet_self (user : Registry) (key : String) (c : Chain) :
    regLookup key (assocSet user key c) = some c := by
  unfold assocSet
  by_cases h : (regLookup key user).isSome = true
  · rw [if_pos h]
    exact regLookup_map_set user key c h
  · rw [if_neg h]
    have h0 : regLookup key user = none := by
      cases hu : regLookup key user with
      | none => rfl
      | some v => rw [hu] at h; simp at h
    rw [regLookup_append, h0]
    simp [regLookup]

/-- Deleting a key removes it from lookup. -/
theorem regLookup_regErase (user : Registry) (key : String) :
    regLookup key (regErase key user) = none := by
  induction user with
  | nil => rfl
  | cons hd tl ih =>
      obtain ⟨a, b⟩ := hd
      unfold regErase
      by_cases ha : a = key
      · rw [if_pos ha]
        exact ih
      · rw [if_neg ha]
        unfold regLookup
        rw [if_neg ha]
        exact ih

/-- C7 (amended): for every valid descriptor whose name contains no
whitespace (so the stored key is exactly the lowercased name) and whose
lowercased name is not a built-in chain key, add followed by resolve
returns the stored descriptor — equal in all fields to the config built
from the added options — and a subsequent remove makes resolve fail with
the unknown-chain error. -/
theorem addChain_resolve_roundTrip (urlValid : String → Bool)
    (user : Registry) (opts : AddOpts)
    (hname : ¬ opts.name = "") (hid0 : ¬ opts.chainId = 0)
    (hrpc : ¬ opts.rpc = "") (hidpos : 0 < opts.chainId)
    (hurl : urlValid opts.rpc = true)
    (hkey : chainKeyOf opts.name = lowerStr opts.name)
    (hbuiltin : regLookup (lowerStr opts.name) builtinChains = none) :
    ∃ user1,
      addChain urlValid user opts = Except.ok user1 ∧
      resolveChain user1 opts.name = Except.ok (chainConfigOf urlValid opts) ∧
      ∃ user2, removeChain user1 opts.name = Except.ok user2 ∧
        ∃ msg, resolveChain user2 opts.name = Except.error msg := by
  have h1 : ¬ (opts.name = "" ∨ opts.chainId = 0 ∨ opts.rpc = "") := by
    push_neg
    exact ⟨hname, hid0, hrpc⟩
  have h2 : ¬ opts.chainId ≤ 0 := not_le.mpr hidpos
  have hadd : addChain urlValid user opts =
      Except.ok (assocSet user (lowerStr opts.name) (chainConfigOf urlValid opts)) := by
    unfold addChain
    rw [if_neg h1, if_neg h2, hkey]
    simp [hurl]
  refine ⟨assocSet user (lowerStr opts.name) (chainConfigOf urlValid opts),
    hadd, ?_, ?_⟩
  · unfold resolveChain getChain mergedChains
    rw [regLookup_append, regLookup_assocSet_self]
  · refine ⟨regErase (lowerStr opts.name)
      (assocSet user (lowerStr opts.name) (chainConfigOf urlValid opts)),
      ?_, ?_⟩
    · unfold removeChain
      dsimp only
      rw [regLookup_assocSet_self]
      rfl
    · unfold resolveChain getChain mergedChains
      rw [regLookup_append, regLookup_regErase, hbuiltin]
      exact ⟨_, rfl⟩
/-- C7 witness (scenario D shape): add testnet on an empty user set, resolve
returns it, remove succeeds, and resolve then fails. -/
theorem addChain_resolve_roundTrip_witness :
    ∃ user1,
      addChain allUrlsValid [] testnetOpts = Except.ok user1 ∧
      resolveChain user1 "testnet" =
        Except.ok (chainConfigOf allUrlsValid testnetOpts) ∧
      ∃ user2, removeChain user1 "testnet" = Except.ok user2 ∧
        ∃ msg, resolveChain user2 "testnet" = Except.error msg :=
  addChain_resolve_roundTrip allUrlsValid [] testnetOpts
    (by decide) (by decide) (by decide) (by decide) rfl rfl rfl
/-- C7 counterexample: the round-trip fails as universally stated — adding
a valid descriptor named "base" (shadowing the built-in base chain), then
removing it, leaves resolve("base") succeeding with the built-in
descriptor instead of failing with the unknown-chain error. -/
theorem addChain_resolve_roundTrip_cex :
    addChain allUrlsValid [] shadowBaseOpts =
      Except.ok [("base", chainConfigOf allUrlsValid shadowBaseOpts)] ∧
    resolveChain [("base", chainConfigOf allUrlsValid shadowBaseOpts)] "base" =
      Except.ok (chainConfigOf allUrlsValid shadowBaseOpts) ∧
    removeChain [("base", chainConfigOf allUrlsValid shadowBaseOpts)] "base" =
      Except.ok [] ∧
    resolveChain [] "base" = Except.ok baseBuiltinChain :=
  ⟨rfl, rfl, rfl, rfl⟩

/-- C8 (amended): resolution is case-insensitive on successes and accepts
exactly the union of the user-defined and built-in sets; removing a name
that matches a built-in chain fails with the only-user-defined-chains-
removable error whenever the name is absent from the user set, but when a
user-defined entry shadows the built-in name the removal succeeds and
deletes the user entry. -/
theorem resolve_union_remove_builtin (user : Registry) (n1 n2 name : String) :
    (lowerStr n1 = lowerStr n2 →
      ∀ c, resolveChain user n1 = Except.ok c ↔
        resolveChain user n2 = Except.ok c) ∧
    ((∃ c, resolveChain user name = Except.ok c) ↔
      ((regLookup (lowerStr name) user).isSome = true ∨
       (regLookup (lowerStr name) builtinChains).isSome = true)) ∧
    ((regLookup (lowerStr name) builtinChains).isSome = true →
      regLookup (lowerStr name) user = none →
      removeChain user name =
        Except.error ("Chain \x22" ++ lowerStr name
          ++ "\x22 not found in user config (only user-defined chains can be removed)")) ∧
    ((regLookup (lowerStr name) builtinChains).isSome = true →
      ∀ cu, regLookup (lowerStr name) user = some cu →
        removeChain user name =
          Except.ok (regErase (lowerStr name) user)) := by
  refine ⟨?_, ?_, ?_, ?_⟩
  · intro h c
    unfold resolveChain getChain mergedChains
    rw [h]
    cases regLookup (lowerStr n2) (user ++ builtinChains) with
    | some ch => simp
    | none => simp
  · unfold resolveChain getChain mergedChains
    rw [regLookup_append]
    cases hu : regLookup (lowerStr name) user with
    | some c => simp
    | none =>
        cases hb : regLookup (lowerStr name) builtinChains with
        | some c => simp
        | none => simp
  · intro _hb hu
    unfold removeChain
    dsimp only
    rw [hu]
    rfl
  · intro _hb cu hcu
    unfold removeChain
    dsimp only
    rw [hcu]
    rfl
/-- C8 witness: on an empty user set, resolving "BASE" and "base" agree on
the built-in base config, and removing the built-in name "base" fails with
the not-removable error. -/
theorem resolve_union_remove_builtin_witness :
    (resolveChain [] "BASE" = Except.ok baseBuiltinChain ↔
      resolveChain [] "base" = Except.ok baseBuiltinChain) ∧
    removeChain [] "base" =
      Except.error ("Chain \x22base\x22 not found in user config (only user-defined chains can be removed)") :=
  ⟨(resolve_union_remove_builtin [] "BASE" "base" "base").1 rfl baseBuiltinChain,
   (resolve_union_remove_builtin [] "BASE" "base" "base").2.2.1 rfl rfl⟩
/-- C8 counterexample: with a user-defined entry shadowing the built-in
name "base", removing "base" succeeds instead of always failing. -/
theorem remove_builtin_name_succeeds_cex :
    (regLookup (lowerStr "base") builtinChains).isSome = true ∧
    removeChain [("base", chainConfigOf allUrlsValid shadowBaseOpts)] "base" =
      Except.ok [] :=
  ⟨rfl, rfl⟩

end EvmWallet
